import Mathlib

/-!
Shallow embedding of the Interest-Capture and Notification Subsystem of
src/src/CoffeeCoreSite.tsx (the single React component CoffeeCoreSite).

Modelling conventions:
  - React state (the four useState hooks at lines 20-23) becomes the record
    CompState; the DOM-visible side effects (network requests issued by fetch,
    mailto navigations via window.location.href, alert dialogs) are logged in
    the World record.
  - Each async handler is split at its await point: the synchronous prefix runs
    in the step function for the triggering UI event, and the continuation after
    the fetch resolves runs in the step function for a resolveFetch event.  The
    JavaScript try/catch/finally structure of the two async handlers is embedded
    explicitly with an Except-valued try block, so that exception propagation is
    a provable property rather than an assumption.
  - Event enabledness encodes the rendered DOM: while the modal is rendered
    (line 352: open and clickedProduct non-null) its full-screen overlay (fixed
    inset-0 z-50) blocks clicks on the underlying page, and the modal submit
    button is disabled while submitting (line 399), which also blocks implicit
    form submission.
  - new Date().toISOString() is modelled by the ambient string World.now: the
    platform guarantees this string is the ISO-8601 rendering of the current
    instant, and the embedding only tracks which string is placed in a body.
-/

namespace CoffeeCore

/-- Product status, source line 28: "presente" or "futuro". -/
inductive ProductStatus
  | presente
  | futuro
deriving DecidableEq

/-- Product record, source lines 25-32 (the color field is a tailwind class). -/
structure Product where
  id : String
  name : String
  status : ProductStatus
  summary : String
  tag : String
  color : String
deriving DecidableEq

/-- Catalog entry, source lines 49-57. -/
def polifenoli : Product :=
  ⟨("polifenoli"), ("Polifenoli & Bioattivi (upcycled)"), ProductStatus.presente,
   ("Estratti ad alto valore da scarti di caffè per nutraceutica, food & beverage e cosmetica."),
   ("Core"), ("bg-[#57992D]")⟩

/-- Catalog entry, source lines 58-66. -/
def pellet : Product :=
  ⟨("pellet"), ("Pellet da scarti di caffè"), ProductStatus.futuro,
   ("Combustibile sostenibile e tracciabile ottenuto dal residuo di lavorazione."),
   ("R&D"), ("bg-[#8E4A49]")⟩

/-- Catalog entry, source lines 67-75. -/
def bevande : Product :=
  ⟨("bevande"), ("Bevande con bioattivi aggiunti"), ProductStatus.futuro,
   ("Linea di drink funzionali con antiossidanti naturali estratti dal caffè."),
   ("R&D"), ("bg-[#3B7080]")⟩

/-- Catalog entry, source lines 76-84. -/
def oliCosmesi : Product :=
  ⟨("oli-cosmesi"), ("Oli per la cosmesi"), ProductStatus.futuro,
   ("Oli e lipidi da fondi di caffè per skincare e haircare con ingredienti circolari."),
   ("R&D"), ("bg-[#D8C27A]")⟩

/-- The immutable catalog, source lines 47-87. -/
def products : List Product := [polifenoli, pellet, bevande, oliCosmesi]

/-- The four useState hooks, source lines 20-23. -/
structure CompState where
  isOpen : Bool
  clickedProduct : Option Product
  submitting : Bool
  submitMsg : Option String
deriving DecidableEq

/-- Success message of the fake-door CTA path, source lines 115-117. -/
def fakeDoorOkMsg : String :=
  "Grazie! Abbiamo registrato il tuo interesse e avvisato l\x27amministratore."

/-- Success message of the modal email form, source line 381. -/
def modalOkMsg : String := "Perfetto! Ti avviseremo appena disponibile."

/-- Unconditional alert of the contact form, source line 314. -/
def contactAlertMsg : String := "Grazie! Ti ricontatteremo al più presto."

/-- Hard-coded email put in the fake-door CTA request body, source line 110. -/
def fakeDoorEmail : String := "info@coffeecore.it"

/-- Administrative address of the mailto fallback, source line 391. -/
def adminContact : String := "admin@coffeecore.example"

/-- Body of the mailto fallback, source line 390 (before encodeURIComponent). -/
def modalMailBody : String :=
  "Vorrei saperne di più su questo prodotto quando sarà pronto."

/-- JSON body of one POST to /api/notify.  The contact form (line 311) sends
product, email, name, msg, ts; the fake-door CTA (lines 108-112) and the modal
form (line 378) send product, email, ts, so name and msg are Options. -/
structure NotifyRequest where
  product : String
  email : String
  name : Option String
  msg : Option String
  ts : String
  method : String
deriving DecidableEq

/-- A mail-compose action: the fields placed in the mailto URL at line 391,
before percent-encoding by encodeURIComponent. -/
structure MailAction where
  address : String
  subject : String
  body : String
deriving DecidableEq

/-- How one fetch of /api/notify can resolve: res.ok true, res.ok false, or a
rejection of the fetch promise (network, DNS, timeout). -/
inductive FetchResult
  | okResponse
  | httpError
  | networkError
deriving DecidableEq

/-- A JavaScript exception value. -/
structure JsError where
  message : String
deriving DecidableEq

/-- Outcome taxonomy of the spec: Delivered, Rejected, TransportFailed. -/
inductive Outcome
  | delivered
  | rejected
  | transportFailed
deriving DecidableEq

/-- Classification of a fetch resolution into the spec outcome taxonomy:
res.ok means Delivered, a reachable non-success status means Rejected, a
transport-level rejection means TransportFailed. -/
def classify (r : FetchResult) : Outcome :=
  match r with
  | FetchResult.okResponse => Outcome.delivered
  | FetchResult.httpError => Outcome.rejected
  | FetchResult.networkError => Outcome.transportFailed

/-- The try block of handleFakeDoor after the fetch resolves, source lines
114-121: on res.ok set the success message; otherwise clear the message and
throw Error("notify failed"); a transport failure is a throw out of the await
itself.  Returns the state reached when control leaves the block, plus whether
it left normally or by an exception. -/
def fakeDoorTry (r : FetchResult) (c : CompState) : CompState × Except JsError Unit :=
  match r with
  | FetchResult.okResponse => ({ c with submitMsg := some fakeDoorOkMsg }, Except.ok ())
  | FetchResult.httpError =>
      ({ c with submitMsg := none }, Except.error ⟨("notify failed")⟩)
  | FetchResult.networkError => (c, Except.error ⟨("fetch rejected")⟩)

/-- The catch block of handleFakeDoor, source lines 122-124: only
setSubmitMsg(null); the comment announces a mailto fallback but no action is
taken. -/
def fakeDoorCatch (_e : JsError) (c : CompState) : CompState × Except JsError Unit :=
  ({ c with submitMsg := none }, Except.ok ())

/-- handleFakeDoor from the await on: try/catch, then the finally block
(setSubmitting(false), source line 126). -/
def runFakeDoorHandler (r : FetchResult) (c : CompState) : CompState × Except JsError Unit :=
  let tr := fakeDoorTry r c
  let ac :=
    match tr.2 with
    | Except.ok _ => tr
    | Except.error e => fakeDoorCatch e tr.1
  ({ ac.1 with submitting := false }, ac.2)

/-- The try block of the modal form handler after the fetch resolves, source
lines 380-385. -/
def modalTry (r : FetchResult) (c : CompState) : CompState × Except JsError Unit :=
  match r with
  | FetchResult.okResponse => ({ c with submitMsg := some modalOkMsg }, Except.ok ())
  | FetchResult.httpError =>
      ({ c with submitMsg := none }, Except.error ⟨("fail")⟩)
  | FetchResult.networkError => (c, Except.error ⟨("fetch rejected")⟩)

/-- The catch block of the modal form handler, source lines 386-391: clear the
message and navigate to a mailto URL whose subject is built from the captured
clickedProduct's display name. -/
def modalCatch (p : Product) (_e : JsError) (c : CompState) :
    (CompState × Option MailAction) × Except JsError Unit :=
  (({ c with submitMsg := none },
    some ⟨adminContact, ("Interesse: ") ++ p.name, modalMailBody⟩), Except.ok ())

/-- The modal form handler from the await on: try/catch, then the finally block
(setSubmitting(false), source line 393).  The product p is the clickedProduct
captured by the closure at render time. -/
def runModalHandler (p : Product) (r : FetchResult) (c : CompState) :
    (CompState × Option MailAction) × Except JsError Unit :=
  let tr := modalTry r c
  let ac :=
    match tr.2 with
    | Except.ok _ => ((tr.1, (none : Option MailAction)), tr.2)
    | Except.error e => modalCatch p e tr.1
  ((({ ac.1.1 with submitting := false }), ac.1.2), ac.2)

/-- Resolution of the contact form fetch, source line 312: the promise carries
only a .catch(() => \x7b\x7d) handler, so rejection is absorbed and success is
ignored; no exception escapes and no state changes. -/
def contactFetchResolve (_r : FetchResult) : Except JsError Unit := Except.ok ()

/-- Which handler continuation a pending fetch belongs to, with the closure
captures it needs. -/
inductive PendingKind
  | fakeDoor (p : Product)
  | modalForm (p : Product)
  | contactForm
deriving DecidableEq

/-- A fetch that has been issued and has not resolved yet. -/
structure PendingFetch where
  kind : PendingKind
  req : NotifyRequest
deriving DecidableEq

/-- The whole observable world: React state plus logs of the DOM side effects
and the set of in-flight fetches.  now is the string new Date().toISOString()
returns at the current instant (ISO-8601 by the platform contract). -/
structure World where
  comp : CompState
  pending : List PendingFetch
  sent : List NotifyRequest
  mailActions : List MailAction
  alerts : List String
  now : String
deriving DecidableEq

/-- Whether the modal is rendered, source line 352: open && clickedProduct. -/
def modalRendered (c : CompState) : Bool := c.isOpen && c.clickedProduct.isSome

/-- The UI events that drive the subsystem, plus resolution of a pending fetch.
resolveFetch i r resolves the i-th in-flight fetch with result r. -/
inductive Ev
  | clickProduct (p : Product)
  | clickClose
  | submitModal (email : String)
  | submitContact (nm : String) (email : String) (m : String)
  | resolveFetch (i : Nat) (r : FetchResult)

/-- One step of the event semantics.
  - clickProduct p: the product CTA (line 267) calls handleFakeDoor p, whose
    synchronous prefix (lines 99-113) sets clickedProduct, opens the modal,
    sets submitting, clears the message and issues the POST with the hard-coded
    email.  Blocked while the modal overlay is rendered.
  - clickClose: the close button (line 360) only calls setOpen(false).
  - submitModal email: the modal form submit (lines 368-379 up to the await);
    blocked when the modal is not rendered or the submit button is disabled by
    submitting (line 399).
  - submitContact: the contact form submit (lines 302-315): fire-and-forget
    POST, then an unconditional success alert.
  - resolveFetch i r: the continuation of the i-th in-flight fetch runs. -/
def step (e : Ev) (w : World) : World :=
  match e with
  | Ev.clickProduct p =>
      if modalRendered w.comp then w
      else
        let rq : NotifyRequest := ⟨p.id, fakeDoorEmail, none, none, w.now, ("POST")⟩
        { w with
          comp := ⟨true, some p, true, none⟩,
          sent := w.sent ++ [rq],
          pending := w.pending ++ [⟨PendingKind.fakeDoor p, rq⟩] }
  | Ev.clickClose =>
      if modalRendered w.comp then { w with comp := { w.comp with isOpen := false } }
      else w
  | Ev.submitModal email =>
      match w.comp.clickedProduct with
      | none => w
      | some p =>
          if w.comp.isOpen && !w.comp.submitting then
            let rq : NotifyRequest := ⟨p.id, email, none, none, w.now, ("POST")⟩
            { w with
              comp := { w.comp with submitting := true, submitMsg := none },
              sent := w.sent ++ [rq],
              pending := w.pending ++ [⟨PendingKind.modalForm p, rq⟩] }
          else w
  | Ev.submitContact nm email m =>
      let rq : NotifyRequest := ⟨("contact"), email, some nm, some m, w.now, ("POST")⟩
      { w with
        sent := w.sent ++ [rq],
        pending := w.pending ++ [⟨PendingKind.contactForm, rq⟩],
        alerts := w.alerts ++ [contactAlertMsg] }
  | Ev.resolveFetch i r =>
      match w.pending[i]? with
      | none => w
      | some pf =>
          let w1 := { w with pending := w.pending.eraseIdx i }
          match pf.kind with
          | PendingKind.fakeDoor _ => { w1 with comp := (runFakeDoorHandler r w1.comp).1 }
          | PendingKind.modalForm p =>
              let out := runModalHandler p r w1.comp
              { w1 with
                comp := out.1.1,
                mailActions := w1.mailActions ++ (match out.1.2 with
                  | some a => [a]
                  | none => []) }
          | PendingKind.contactForm => w1

/-- Run a list of events in order. -/
def run (es : List Ev) (w : World) : World := es.foldl (fun w e => step e w) w

/-- Initial world: the useState initializers at lines 20-23, nothing in flight,
no side effects yet. -/
def initWorld : World :=
  ⟨⟨false, none, false, none⟩, [], [], [], [], ("2026-10-11T00:00:00.000Z")⟩

/-- State of one target element of the Scroll-Highlight Navigator: whether its
classList currently contains cc-highlight, and the deadlines (in ms) of the
removal timeouts scheduled so far and not yet fired. -/
structure NavState where
  hasHighlight : Bool
  timers : List Nat
deriving DecidableEq

/-- jumpAndHighlight, source lines 89-96, called at time t for one element:
if getElementById found nothing, return; else scroll (not tracked), add the
cc-highlight class (classList.add is idempotent) and schedule one setTimeout
that will remove the class 1000 ms later.  Each call appends its own timer. -/
def jumpAndHighlight (present : Bool) (t : Nat) (s : NavState) : NavState :=
  if present then { hasHighlight := true, timers := s.timers ++ [t + 1000] }
  else s

/-- The timeout scheduled for deadline d fires: its callback (line 95) removes
the cc-highlight class; classList.remove succeeds whether or not the class is
still present.  Only a deadline actually pending can fire. -/
def fireTimer (d : Nat) (s : NavState) : NavState :=
  if d ∈ s.timers then { hasHighlight := false, timers := s.timers.erase d }
  else s

/-- The ModalState invariant of the spec: an open modal always has a target
product. -/
def modalInv (c : CompState) : Prop := c.isOpen = true → c.clickedProduct ≠ none

/-- Scenario world: the pellet CTA has been clicked from the initial world, so
the modal is rendered, submitting is true, and one fake-door fetch is in
flight. -/
def wPelletClicked : World := step (Ev.clickProduct pellet) initWorld

/-- Scenario world: the fake-door fetch of wPelletClicked resolved with res.ok,
so the modal still shows pellet and submitting is back to false. -/
def wPelletDone : World := step (Ev.resolveFetch 0 FetchResult.okResponse) wPelletClicked

/-- Scenario world: from wPelletDone the modal email form was submitted, so one
modalForm fetch is in flight. -/
def wModalSubmitted : World := step (Ev.submitModal ("a@b.com")) wPelletDone

/-- Scenario world: the contact form was submitted from the initial world. -/
def wContactSubmitted : World :=
  step (Ev.submitContact ("Anna") ("a@b.com") ("ciao")) initWorld

/-- Scenario world: the close button was clicked while the pellet fake-door
fetch was still in flight. -/
def wClosedAfterPellet : World := step Ev.clickClose wPelletClicked

/-- Scenario world: with the modal closed but the pellet fetch still in flight,
the bevande CTA was clicked. -/
def wSecondClick : World := step (Ev.clickProduct bevande) wClosedAfterPellet

/-- Scenario world: the pellet fake-door fetch of wPelletClicked resolved with
a transport failure. -/
def wCtaFailed : World := step (Ev.resolveFetch 0 FetchResult.networkError) wPelletClicked

/-- The request the modal email form sends in the wModalSubmitted scenario. -/
def pelletModalReq : NotifyRequest :=
  ⟨pellet.id, ("a@b.com"), none, none, initWorld.now, ("POST")⟩

/-- Navigator scenario: two calls to the same present section, at 0 ms and at
300 ms, starting from a clean element. -/
def navTwoCalls : NavState :=
  jumpAndHighlight true 300 (jumpAndHighlight true 0 ⟨false, []⟩)

/- ===================== helper lemmas ===================== -/

theorem runFakeDoorHandler_submitting (r : FetchResult) (c : CompState) :
    ((runFakeDoorHandler r c).1).submitting = false := by
  cases r <;> rfl

theorem runFakeDoorHandler_modalFields (r : FetchResult) (c : CompState) :
    ((runFakeDoorHandler r c).1).isOpen = c.isOpen ∧
    ((runFakeDoorHandler r c).1).clickedProduct = c.clickedProduct := by
  cases r <;> exact ⟨rfl, rfl⟩

theorem runModalHandler_modalFields (p : Product) (r : FetchResult) (c : CompState) :
    ((runModalHandler p r c).1.1).isOpen = c.isOpen ∧
    ((runModalHandler p r c).1.1).clickedProduct = c.clickedProduct := by
  cases r <;> exact ⟨rfl, rfl⟩

theorem step_resolve_none (i : Nat) (r : FetchResult) (w : World)
    (hp : w.pending[i]? = none) : step (Ev.resolveFetch i r) w = w := by
  simp only [step, hp]

theorem step_resolve_fakeDoor (i : Nat) (r : FetchResult) (w : World)
    (pf : PendingFetch) (q : Product)
    (hp : w.pending[i]? = some pf) (hk : pf.kind = PendingKind.fakeDoor q) :
    step (Ev.resolveFetch i r) w =
      { w with comp := (runFakeDoorHandler r w.comp).1, pending := w.pending.eraseIdx i } := by
  simp only [step, hp, hk]

theorem step_resolve_modalForm (i : Nat) (r : FetchResult) (w : World)
    (pf : PendingFetch) (q : Product)
    (hp : w.pending[i]? = some pf) (hk : pf.kind = PendingKind.modalForm q) :
    step (Ev.resolveFetch i r) w =
      { w with
        comp := (runModalHandler q r w.comp).1.1,
        pending := w.pending.eraseIdx i,
        mailActions := w.mailActions ++ (match (runModalHandler q r w.comp).1.2 with
          | some a => [a]
          | none => []) } := by
  simp only [step, hp, hk]

theorem step_resolve_contactForm (i : Nat) (r : FetchResult) (w : World)
    (pf : PendingFetch)
    (hp : w.pending[i]? = some pf) (hk : pf.kind = PendingKind.contactForm) :
    step (Ev.resolveFetch i r) w = { w with pending := w.pending.eraseIdx i } := by
  simp only [step, hp, hk]

/- ===================== claim theorems ===================== -/

/-- Claim C7: for every product, every fetch resolution and every component
state, each of the three submission paths (fake-door CTA, modal email form,
contact form) completes with exactly one of the outcomes Delivered, Rejected,
TransportFailed, and no exception escapes its handler: the try/catch of the
two async handlers and the promise .catch of the contact form always leave the
handler normally. -/
theorem claim7_outcome_totality :
    ∀ (p : Product) (r : FetchResult) (c : CompState),
      (runFakeDoorHandler r c).2 = Except.ok () ∧
      (runModalHandler p r c).2 = Except.ok () ∧
      contactFetchResolve r = Except.ok () ∧
      (classify r = Outcome.delivered ↔ r = FetchResult.okResponse) ∧
      (classify r = Outcome.rejected ↔ r = FetchResult.httpError) ∧
      (classify r = Outcome.transportFailed ↔ r = FetchResult.networkError) := by
  intro p r c
  cases r <;>
    simp [runFakeDoorHandler, fakeDoorTry, fakeDoorCatch, runModalHandler,
      modalTry, modalCatch, contactFetchResolve, classify]

/-- Claim C10: a click on a product call-to-action, whenever it can physically
happen (the modal overlay is not rendered), immediately issues exactly one
notification POST whose email field is the hard-coded constant
info@coffeecore.it; the event carries no user input at all. -/
theorem claim10_cta_posts_immediately (p : Product) (w : World)
    (h : modalRendered w.comp = false) :
    (step (Ev.clickProduct p) w).sent =
      w.sent ++ [⟨p.id, fakeDoorEmail, none, none, w.now, ("POST")⟩] := by
  simp [step, h]

/-- Witness for claim C10 at the pellet product in the initial world. -/
theorem claim10_witness :
    modalRendered initWorld.comp = false ∧
    (step (Ev.clickProduct pellet) initWorld).sent =
      initWorld.sent ++ [⟨pellet.id, fakeDoorEmail, none, none, initWorld.now, ("POST")⟩] :=
  ⟨by decide, claim10_cta_posts_immediately pellet initWorld (by decide)⟩

/-- Claim C9 counterexample: two focusSection calls on the same present section
at 0 ms and 300 ms leave two independent removal timers (the claim says the
second call restarts a single timer), and the first timer firing at 1000 ms
already removes the highlight, earlier than one full duration after the latest
call (300 + 1000 = 1300 ms). -/
theorem claim9_counterexample :
    navTwoCalls.timers = [1000, 1300] ∧
    navTwoCalls.timers.length = 2 ∧
    (fireTimer 1000 navTwoCalls).hasHighlight = false ∧
    1000 < 300 + 1000 := by
  decide

/-- Claim C9 amended: a second call to the same active section re-adds the
class (no visual restart) and appends an additional independent removal timer,
so the element carries one timer per call and the highlight is removed when the
earliest pending timer fires, 1000 ms after the first call, not after the
latest. -/
theorem claim9_timer_stacking (t1 t2 : Nat) (s : NavState) :
    (jumpAndHighlight true t2 (jumpAndHighlight true t1 s)).hasHighlight = true ∧
    (jumpAndHighlight true t2 (jumpAndHighlight true t1 s)).timers =
      s.timers ++ [t1 + 1000, t2 + 1000] ∧
    (fireTimer (t1 + 1000)
      (jumpAndHighlight true t2 (jumpAndHighlight true t1 s))).hasHighlight = false := by
  refine ⟨rfl, by simp [jumpAndHighlight], ?_⟩
  simp [jumpAndHighlight, fireTimer]

/-- Claim C4 counterexample: right after open(pellet) from the initial world
the submission machine is not reset to idle: submitting is true and one
request is already in flight (open itself begins a submission). -/
theorem claim4_counterexample :
    wPelletClicked.comp.submitting = true ∧ wPelletClicked.pending.length = 1 := by
  decide

/-- Claim C4 amended: open(p) sets ModalState to isOpen true and targetProduct
p and clears the prior confirmation message, so stale success/failure messages
never leak across products; but instead of resetting the machine to idle it
immediately begins a submission: the machine enters submitting with exactly one
request issued. -/
theorem claim4_open_transitions (p : Product) (w : World)
    (h : modalRendered w.comp = false) :
    (step (Ev.clickProduct p) w).comp = ⟨true, some p, true, none⟩ ∧
    (step (Ev.clickProduct p) w).sent =
      w.sent ++ [⟨p.id, fakeDoorEmail, none, none, w.now, ("POST")⟩] ∧
    (step (Ev.clickProduct p) w).pending =
      w.pending ++ [⟨PendingKind.fakeDoor p, ⟨p.id, fakeDoorEmail, none, none, w.now, ("POST")⟩⟩] := by
  refine ⟨?_, ?_, ?_⟩ <;> simp [step, h]

/-- Witness for claim C4 amended at the pellet product in the initial world. -/
theorem claim4_witness :
    modalRendered initWorld.comp = false ∧
    ((step (Ev.clickProduct pellet) initWorld).comp = ⟨true, some pellet, true, none⟩ ∧
     (step (Ev.clickProduct pellet) initWorld).sent =
       initWorld.sent ++ [⟨pellet.id, fakeDoorEmail, none, none, initWorld.now, ("POST")⟩] ∧
     (step (Ev.clickProduct pellet) initWorld).pending =
       initWorld.pending ++
         [⟨PendingKind.fakeDoor pellet, ⟨pellet.id, fakeDoorEmail, none, none, initWorld.now, ("POST")⟩⟩]) :=
  ⟨by decide, claim4_open_transitions pellet initWorld (by decide)⟩

/-- Claim C5 counterexample: closing the modal while pellet is the target only
sets isOpen to false; targetProduct is left as pellet, not cleared to none. -/
theorem claim5_counterexample :
    wClosedAfterPellet.comp.isOpen = false ∧
    wClosedAfterPellet.comp.clickedProduct = some pellet := by
  decide

/-- Claim C5 amended: close() sets isOpen to false and leaves targetProduct
unchanged (it is not cleared to none); it does not cancel an in-flight
submission: the pending fetches are untouched, no request or side-effect log
changes, and a pending fake-door fetch still resolves to completion afterwards
(its finally block still runs, clearing submitting, and it leaves the pending
set). -/
theorem claim5_close_behavior (w : World) (h : modalRendered w.comp = true) :
    (step Ev.clickClose w).comp.isOpen = false ∧
    (step Ev.clickClose w).comp.clickedProduct = w.comp.clickedProduct ∧
    (step Ev.clickClose w).comp.submitting = w.comp.submitting ∧
    (step Ev.clickClose w).pending = w.pending ∧
    (step Ev.clickClose w).sent = w.sent ∧
    (∀ (i : Nat) (q : Product) (rq : NotifyRequest) (r : FetchResult),
      w.pending[i]? = some ⟨PendingKind.fakeDoor q, rq⟩ →
      (step (Ev.resolveFetch i r) (step Ev.clickClose w)).comp.submitting = false ∧
      (step (Ev.resolveFetch i r) (step Ev.clickClose w)).pending = w.pending.eraseIdx i) := by
  have hw : step Ev.clickClose w = { w with comp := { w.comp with isOpen := false } } := by
    simp [step, h]
  rw [hw]
  refine ⟨rfl, rfl, rfl, rfl, rfl, ?_⟩
  intro i q rq r hp
  rw [step_resolve_fakeDoor i r { w with comp := { w.comp with isOpen := false } }
    ⟨PendingKind.fakeDoor q, rq⟩ q hp rfl]
  exact ⟨runFakeDoorHandler_submitting r _, rfl⟩

/-- Witness for claim C5 amended: close the modal while the pellet fetch is in
flight, then resolve that fetch. -/
theorem claim5_witness :
    modalRendered wPelletClicked.comp = true ∧
    ((step Ev.clickClose wPelletClicked).comp.isOpen = false ∧
     (step Ev.clickClose wPelletClicked).comp.clickedProduct = wPelletClicked.comp.clickedProduct ∧
     (step Ev.clickClose wPelletClicked).comp.submitting = wPelletClicked.comp.submitting ∧
     (step Ev.clickClose wPelletClicked).pending = wPelletClicked.pending ∧
     (step Ev.clickClose wPelletClicked).sent = wPelletClicked.sent ∧
     (∀ (i : Nat) (q : Product) (rq : NotifyRequest) (r : FetchResult),
       wPelletClicked.pending[i]? = some ⟨PendingKind.fakeDoor q, rq⟩ →
       (step (Ev.resolveFetch i r) (step Ev.clickClose wPelletClicked)).comp.submitting = false ∧
       (step (Ev.resolveFetch i r) (step Ev.clickClose wPelletClicked)).pending =
         wPelletClicked.pending.eraseIdx i)) :=
  ⟨by decide, claim5_close_behavior wPelletClicked (by decide)⟩

/-- Claim C3 counterexample: with the pellet fake-door fetch still in flight the
machine is submitting, yet closing the modal and clicking the bevande
call-to-action issues a second request: afterwards two requests have been sent
and two fetches are in flight on the same shared submission state, so begin
while submitting is not rejected and more than one submission is in flight. -/
theorem claim3_counterexample :
    wClosedAfterPellet.comp.submitting = true ∧
    wSecondClick.sent.length = 2 ∧
    wSecondClick.pending.length = 2 := by
  decide

/-- Claim C3 amended: only the modal email form rejects begin while submitting
(its submit button is disabled, so the event is a complete no-op: identical
state, no request); the product call-to-action handler has no such guard, so
after closing the modal during an in-flight submission a product click begins a
second submission, and the contact form tracks no submitting state at all. -/
theorem claim3_modal_begin_rejected (w : World) (email : String)
    (h : w.comp.submitting = true) :
    step (Ev.submitModal email) w = w := by
  cases hcp : w.comp.clickedProduct with
  | none => simp [step, hcp]
  | some p => simp [step, hcp, h]

/-- Witness for claim C3 amended: a modal form submit while the pellet fetch is
in flight changes nothing. -/
theorem claim3_witness :
    wPelletClicked.comp.submitting = true ∧
    step (Ev.submitModal ("x@y.z")) wPelletClicked = wPelletClicked :=
  ⟨by decide, claim3_modal_begin_rejected wPelletClicked ("x@y.z") (by decide)⟩

/-- Claim C6: the ModalState invariant (isOpen implies a target product is
present) holds in the initial world and is preserved by every event: product
click, close, modal form submit, contact form submit, and every fetch
resolution. -/
theorem claim6_modal_invariant :
    modalInv initWorld.comp ∧
    ∀ (e : Ev) (w : World), modalInv w.comp → modalInv (step e w).comp := by
  constructor
  · intro h
    exact Bool.noConfusion h
  · intro e w hw
    cases e with
    | clickProduct p =>
        by_cases hm : modalRendered w.comp
        · simpa [step, hm] using hw
        · intro _
          simp [step, hm]
    | clickClose =>
        by_cases hm : modalRendered w.comp
        · intro h
          simp [step, hm] at h
        · simpa [step, hm] using hw
    | submitModal email =>
        cases hcp : w.comp.clickedProduct with
        | none => simpa [step, hcp] using hw
        | some p =>
            by_cases hg : (w.comp.isOpen && !w.comp.submitting) = true
            · intro _
              simp [step, hcp, hg]
            · simpa [step, hcp, hg] using hw
    | submitContact nm email m => simpa [step] using hw
    | resolveFetch i r =>
        cases hp : w.pending[i]? with
        | none =>
            rw [step_resolve_none i r w hp]
            exact hw
        | some pf =>
            cases hk : pf.kind with
            | fakeDoor q =>
                rw [step_resolve_fakeDoor i r w pf q hp hk]
                intro h
                have h2 : (runFakeDoorHandler r w.comp).1.isOpen = true := h
                rw [(runFakeDoorHandler_modalFields r w.comp).1] at h2
                have h3 := hw h2
                show (runFakeDoorHandler r w.comp).1.clickedProduct ≠ none
                rw [(runFakeDoorHandler_modalFields r w.comp).2]
                exact h3
            | modalForm q =>
                rw [step_resolve_modalForm i r w pf q hp hk]
                intro h
                have h2 : (runModalHandler q r w.comp).1.1.isOpen = true := h
                rw [(runModalHandler_modalFields q r w.comp).1] at h2
                have h3 := hw h2
                show (runModalHandler q r w.comp).1.1.clickedProduct ≠ none
                rw [(runModalHandler_modalFields q r w.comp).2]
                exact h3
            | contactForm =>
                rw [step_resolve_contactForm i r w pf hp hk]
                exact hw

/-- Witness for claim C6: the invariant holds in the initial world and after a
close click there. -/
theorem claim6_witness :
    modalInv initWorld.comp ∧ modalInv (step Ev.clickClose initWorld).comp :=
  ⟨fun h => Bool.noConfusion h,
   claim6_modal_invariant.2 Ev.clickClose initWorld (fun h => Bool.noConfusion h)⟩

/-- Claim C2: resolving an in-flight modal email form fetch with Rejected or
TransportFailed leaves the confirmation message absent, ends the submission
(submitting false: the degraded resting state), and surfaces exactly one
mail-compose action whose address is the configured administrative contact and
whose subject contains the target product's display name. -/
theorem claim2_modal_failure_fallback (w : World) (i : Nat) (p : Product)
    (rq : NotifyRequest) (r : FetchResult)
    (hp : w.pending[i]? = some ⟨PendingKind.modalForm p, rq⟩)
    (hr : r ≠ FetchResult.okResponse) :
    (step (Ev.resolveFetch i r) w).comp.submitMsg = none ∧
    (step (Ev.resolveFetch i r) w).comp.submitting = false ∧
    (step (Ev.resolveFetch i r) w).mailActions =
      w.mailActions ++ [⟨adminContact, ("Interesse: ") ++ p.name, modalMailBody⟩] ∧
    (∃ a b : String, ("Interesse: ") ++ p.name = a ++ (p.name ++ b)) := by
  cases r with
  | okResponse => exact absurd rfl hr
  | httpError =>
      rw [step_resolve_modalForm i FetchResult.httpError w ⟨PendingKind.modalForm p, rq⟩ p hp rfl]
      exact ⟨rfl, rfl, rfl, ⟨("Interesse: "), "", by rw [String.append_empty]⟩⟩
  | networkError =>
      rw [step_resolve_modalForm i FetchResult.networkError w ⟨PendingKind.modalForm p, rq⟩ p hp rfl]
      exact ⟨rfl, rfl, rfl, ⟨("Interesse: "), "", by rw [String.append_empty]⟩⟩

/-- Witness for claim C2: the modal form fetch for pellet resolves with a
transport failure. -/
theorem claim2_witness :
    wModalSubmitted.pending[0]? = some ⟨PendingKind.modalForm pellet, pelletModalReq⟩ ∧
    ((step (Ev.resolveFetch 0 FetchResult.networkError) wModalSubmitted).comp.submitMsg = none ∧
     (step (Ev.resolveFetch 0 FetchResult.networkError) wModalSubmitted).comp.submitting = false ∧
     (step (Ev.resolveFetch 0 FetchResult.networkError) wModalSubmitted).mailActions =
       wModalSubmitted.mailActions ++
         [⟨adminContact, ("Interesse: ") ++ pellet.name, modalMailBody⟩] ∧
     (∃ a b : String, ("Interesse: ") ++ pellet.name = a ++ (pellet.name ++ b))) :=
  ⟨by decide,
   claim2_modal_failure_fallback wModalSubmitted 0 pellet pelletModalReq
     FetchResult.networkError (by decide) (by decide)⟩

/-- Claim C8: an exact characterization of every network request ever issued.
Each enabled submit call appends exactly one POST: a product CTA click sends
product = the clicked product's identifier with the hard-coded email; a modal
form submit sends product = the target product's identifier with the entered
email; a contact form submit sends the sentinel product "contact" with name and
msg present; in all three the ts field is the current toISOString value and
name/msg are absent outside the contact form.  Every other event — a blocked
click or submit, the close button, and every fetch resolution — sends nothing,
so no request is ever issued on resolution: there is no retry. -/
theorem claim8_request_shape :
    ∀ (e : Ev) (w : World),
      (step e w).sent = w.sent ++ (match e with
        | Ev.clickProduct p =>
            if modalRendered w.comp then []
            else [⟨p.id, fakeDoorEmail, none, none, w.now, ("POST")⟩]
        | Ev.clickClose => []
        | Ev.submitModal email =>
            match w.comp.clickedProduct with
            | none => []
            | some p =>
                if w.comp.isOpen && !w.comp.submitting then
                  [⟨p.id, email, none, none, w.now, ("POST")⟩]
                else []
        | Ev.submitContact nm email m =>
            [⟨("contact"), email, some nm, some m, w.now, ("POST")⟩]
        | Ev.resolveFetch _ _ => []) := by
  intro e w
  cases e with
  | clickProduct p =>
      by_cases hm : modalRendered w.comp
      · simp [step, hm]
      · simp [step, hm]
  | clickClose =>
      by_cases hm : modalRendered w.comp
      · simp [step, hm]
      · simp [step, hm]
  | submitModal email =>
      cases hcp : w.comp.clickedProduct with
      | none => simp [step, hcp]
      | some p =>
          by_cases hg : (w.comp.isOpen && !w.comp.submitting) = true
          · simp [step, hcp, hg]
          · simp [step, hcp, hg]
  | submitContact nm email m => simp [step]
  | resolveFetch i r =>
      cases hp : w.pending[i]? with
      | none =>
          rw [step_resolve_none i r w hp]
          simp
      | some pf =>
          cases hk : pf.kind with
          | fakeDoor q =>
              rw [step_resolve_fakeDoor i r w pf q hp hk]
              simp
          | modalForm q =>
              rw [step_resolve_modalForm i r w pf q hp hk]
              simp
          | contactForm =>
              rw [step_resolve_contactForm i r w pf hp hk]
              simp

/-- Claim C1 evaluated at the failing inputs: when the fake-door CTA fetch for
pellet fails at transport level, no mail-compose fallback is surfaced and no
message of any kind is shown (the catch only clears the message, despite the
header comment promising a mailto fallback); and the contact form shows its
success alert unconditionally: after a Rejected outcome the alert is still the
success confirmation and no fallback exists, contradicting the claim that a
failure outcome always yields a ManualContactAction and never a success
confirmation. -/
theorem claim1_code_divergence :
    wCtaFailed.mailActions = [] ∧
    wCtaFailed.comp.submitMsg = none ∧
    wCtaFailed.comp.submitting = false ∧
    wCtaFailed.alerts = [] ∧
    wContactSubmitted.alerts = [contactAlertMsg] ∧
    (step (Ev.resolveFetch 0 FetchResult.httpError) wContactSubmitted).alerts =
      [contactAlertMsg] ∧
    (step (Ev.resolveFetch 0 FetchResult.httpError) wContactSubmitted).mailActions = [] := by
  decide

end CoffeeCore
